import Mathlib

/-!
A verification development for a three-stage audio pipeline backend
(`main.py`): a FastAPI service that orchestrates remote ATOT
(speech-to-text), TTOT (text-to-text) and TTS (text-to-speech) calls,
keeps cross-stage intermediate results in a process-wide shared context,
and persists per-user history rows in a SQLite table.

The embedding is shallow: each endpoint handler becomes a pure Lean
function from its inputs (shared context, database contents, and the
outcomes the remote services would return) to its response and the
updated state.  Python `None` becomes `Option.none`; Python string
truthiness (`if s:`) is modelled explicitly; SQLAlchemy JSON columns that
may be SQL NULL become `Option (List (Option String))`.
-/

/-- The process-wide shared context (`class SharedData` in `main.py`):
`user_id`, `input_wav`, `atot_text`, `ttot_text`, all initially `None`. -/
structure SharedData where
  user_id : Option Int
  input_wav : Option String
  atot_text : Option String
  ttot_text : Option String
deriving DecidableEq

/-- One row of the `users` table (`class UserDB`): an integer primary key
and four JSON list columns, each of which may be SQL NULL (`none`) or a
JSON list of nullable strings. -/
structure UserDB where
  id : Int
  input_wav_list : Option (List (Option String))
  atot_text_list : Option (List (Option String))
  ttot_text_list : Option (List (Option String))
  output_wav_list : Option (List (Option String))
deriving DecidableEq

/-- The database contents: the rows of the `users` table. -/
abbrev DB := List UserDB

/-- The pinned user identity (`USER_ID = 10` in `main.py`). -/
def USER_ID : Int := 10

/-- `db.query(UserDB).filter(UserDB.id==uid).first()`: the first row with
the given primary key. -/
def dbFirst (db : DB) (uid : Int) : Option UserDB :=
  db.find? (fun v => v.id == uid)

/-- `db.commit()` after mutating the row with primary key `uid`: every
row with that key is replaced by the updated record `u`. -/
def dbUpdate (db : DB) (uid : Int) (u : UserDB) : DB :=
  db.map (fun v => if v.id == uid then u else v)

/-- Rows returned by `db.query(UserDB).all()`.  The handler issues a
SELECT without ORDER BY; the ordering is supplied by the database engine,
not by code under `src/`.  Modelled from the spec: SQLite returns the
rows of an INTEGER PRIMARY KEY table in key order, i.e. ordered by
`userId` ascending. -/
def queryAll (db : DB) : List UserDB :=
  db.mergeSort (fun a b => a.id ≤ b.id)

/-- Python truthiness of an optional string: `None` and `""` are falsy. -/
def pyTruthyStr (s : Option String) : Bool :=
  match s with
  | none => false
  | some t => t != ""

/-- The nested `result.details` object of an ATOT response body. -/
structure AtotDetails where
  received_text : Option String
  audio_url : Option String
deriving DecidableEq

/-- A parsed 2xx ATOT response body.  `result_details` is `none` when the
nested path `result.details` is missing (both `.get` defaults apply). -/
structure AtotBody where
  user_id : Option Int
  result_details : Option AtotDetails
deriving DecidableEq

/-- `data.get("result", \x7b\x7d).get("details", \x7b\x7d).get("received_text", None)`. -/
def atotReceivedText (b : AtotBody) : Option String :=
  b.result_details.bind AtotDetails.received_text

/-- `data.get("result", \x7b\x7d).get("details", \x7b\x7d).get("audio_url", None)`. -/
def atotAudioUrl (b : AtotBody) : Option String :=
  b.result_details.bind AtotDetails.audio_url

/-- A parsed 2xx TTOT response body: `user_id` and `response` fields,
either of which may be missing. -/
structure TtotBody where
  user_id : Option Int
  response : Option String
deriving DecidableEq

/-- Outcome of one remote HTTP call as seen by the handler:
`requestError` is an `httpx.RequestError` (transport failure),
`otherError` is any other exception (non-2xx from `raise_for_status`,
JSON decoding, ...), `success` is a 2xx response with a parsed body.
The message carries `str(e)`. -/
inductive CallResult (β : Type) where
  | requestError (msg : String)
  | otherError (msg : String)
  | success (body : β)
deriving DecidableEq

/-- Outcome of the TTS POST: the exception classes the handlers catch
separately, or a 2xx response carrying the raw body bytes. -/
inductive TtsResult where
  | connectError (msg : String)
  | statusError (status : Nat) (msg : String)
  | otherError (msg : String)
  | ok (content : List Nat)
deriving DecidableEq

/-- The TTS block of `run_full_pipeline` (lines 377-413): returns
`(output_filename, tts_success, tts_error)`.  A non-empty 2xx body is
written to the fixed artifact name; an empty body or any caught
exception leaves `output_filename = None`. -/
def ttsStep (tts : TtsResult) : Option String × Bool × Option String :=
  match tts with
  | .ok content =>
      if content.length > 0 then (some "received_audio.wav", true, none)
      else (none, false, some "TTS 서버에서 빈 데이터를 받았습니다")
  | .connectError m => (none, false, some ("TTS 서버 연결 실패 (port 8004 확인): " ++ m))
  | .statusError s _ => (none, false, some ("TTS API 오류 (상태: " ++ toString s ++ ")"))
  | .otherError m => (none, false, some ("TTS 오류: " ++ m))

/-- The TTS block of `process_audio` (lines 218-248); same logic as
`ttsStep` with slightly different error strings. -/
def ttsStepProcess (tts : TtsResult) : Option String × Bool × Option String :=
  match tts with
  | .ok content =>
      if content.length > 0 then (some "received_audio.wav", true, none)
      else (none, false, some "TTS 서버에서 빈 데이터를 받았습니다.")
  | .connectError m =>
      (none, false, some ("TTS 서버 연결 실패 (port 8004가 실행 중인지 확인): " ++ m))
  | .statusError s m =>
      (none, false, some ("TTS API 오류 (상태 코드: " ++ toString s ++ "): " ++ m))
  | .otherError m => (none, false, some ("TTS 오류: " ++ m))

/-- The shared DB-append block (lines 250-263 of `process_audio`, lines
415-427 of `run_full_pipeline`, identical in both): extend all four list
columns by one element, with Python truthiness deciding the `input_wav`
and `output_wav` elements and `x or ""` coalescing the two texts. -/
def appendRecord (user : UserDB) (input_wav atot_text ttot_text output_filename : Option String) :
    UserDB :=
  { user with
    input_wav_list := some ((user.input_wav_list.getD []) ++
      [if pyTruthyStr input_wav then input_wav else none]),
    atot_text_list := some ((user.atot_text_list.getD []) ++ [some (atot_text.getD "")]),
    ttot_text_list := some ((user.ttot_text_list.getD []) ++ [some (ttot_text.getD "")]),
    output_wav_list := some ((user.output_wav_list.getD []) ++
      [if pyTruthyStr output_filename then output_filename else none]) }

/-- The user payload of the `/` response: four lists with `or []`
normalization applied. -/
structure RootUser where
  id : Int
  input_wav_list : List (Option String)
  atot_text_list : List (Option String)
  ttot_text_list : List (Option String)
  output_wav_list : List (Option String)
deriving DecidableEq

/-- The `/` response body. -/
structure RootResult where
  message : String
  user : RootUser
deriving DecidableEq

/-- The row created by `read_root` for a missing pinned user: all four
list columns initialized to empty JSON lists. -/
def emptyPinnedUser : UserDB :=
  { id := USER_ID, input_wav_list := some [], atot_text_list := some [],
    ttot_text_list := some [], output_wav_list := some [] }

/-- `GET /` (`read_root`, lines 87-125): fetch the pinned user's row,
creating it with four empty lists when missing, and answer with the
`or []`-normalized lists. -/
def read_root (db : DB) : RootResult × DB :=
  match dbFirst db USER_ID with
  | none =>
      ({ message := "This is the Backend Server",
         user := { id := USER_ID,
                   input_wav_list := emptyPinnedUser.input_wav_list.getD [],
                   atot_text_list := emptyPinnedUser.atot_text_list.getD [],
                   ttot_text_list := emptyPinnedUser.ttot_text_list.getD [],
                   output_wav_list := emptyPinnedUser.output_wav_list.getD [] } },
       db ++ [emptyPinnedUser])
  | some u =>
      ({ message := "This is the Backend Server",
         user := { id := USER_ID,
                   input_wav_list := u.input_wav_list.getD [],
                   atot_text_list := u.atot_text_list.getD [],
                   ttot_text_list := u.ttot_text_list.getD [],
                   output_wav_list := u.output_wav_list.getD [] } },
       db)

/-- `or []` normalization applied to a row by `get_users` before
returning it: every NULL list column becomes an empty list. -/
def normalizeUser (u : UserDB) : UserDB :=
  { u with
    input_wav_list := some (u.input_wav_list.getD []),
    atot_text_list := some (u.atot_text_list.getD []),
    ttot_text_list := some (u.ttot_text_list.getD []),
    output_wav_list := some (u.output_wav_list.getD []) }

/-- `GET /users` (`get_users`, lines 127-141): all rows, NULL list
columns normalized to empty lists. -/
def get_users (db : DB) : List UserDB :=
  (queryAll db).map normalizeUser

/-- Result of `GET /users/\x7buser_id\x7d`: either HTTP 404 `"User not
found"` or the stored row. -/
inductive GetUserResult where
  | notFound
  | found (u : UserDB)
deriving DecidableEq

/-- `GET /users/\x7buser_id\x7d` (`get_user`, lines 143-148): a lookup
that raises 404 for an unknown id; no lazy creation here. -/
def get_user (uid : Int) (db : DB) : GetUserResult :=
  match dbFirst db uid with
  | none => .notFound
  | some u => .found u

/-- Response of `GET /atot`: an error body, or the echo of
`user_id` / `input_wav` / `atot_text`. -/
inductive AtotEndpointResult where
  | error (msg : String)
  | ok (user_id : Option Int) (input_wav : Option String) (atot_text : Option String)
deriving DecidableEq

/-- `GET /atot` (`get_atot`, lines 164-182): call the ATOT service, store
`user_id`, `atot_text`, `input_wav` in the shared context and echo them;
on exception leave the context unchanged and answer with an error body. -/
def get_atot (shared : SharedData) (call : CallResult AtotBody) :
    AtotEndpointResult × SharedData :=
  match call with
  | .requestError msg => (.error ("atot 서버에 연결할 수 없습니다: " ++ msg), shared)
  | .otherError msg => (.error ("알 수 없는 오류: " ++ msg), shared)
  | .success data =>
      let shared1 : SharedData :=
        { shared with user_id := data.user_id,
                      atot_text := atotReceivedText data,
                      input_wav := atotAudioUrl data }
      (.ok shared1.user_id shared1.input_wav shared1.atot_text, shared1)

/-- The `POST /process-audio` success response body (lines 269-284). -/
structure ProcessAudioResponse where
  user_id : Int
  input_wav : Option String
  atot_text : Option String
  ttot_text : Option String
  output_wav : Option String
  output_wav_list : Option (List (Option String))
  tts_success : Bool
  message : String
  tts_error : Option String
deriving DecidableEq

/-- Result of `POST /process-audio`: an error body (missing context or
missing user) or the success response. -/
inductive ProcessAudioResult where
  | error (msg : String)
  | ok (resp : ProcessAudioResponse)
deriving DecidableEq

/-- `POST /process-audio` (`process_audio`, lines 201-285): guard on the
cached `ttot_text`, look up the pinned user, run TTS (its failure does
not abort), append one element to each of the four list columns, commit,
and build the response.  The shared context is never written. -/
def process_audio (shared : SharedData) (db : DB) (tts : TtsResult) :
    ProcessAudioResult × SharedData × DB :=
  match shared.ttot_text with
  | none => (.error "ttot_text가 없습니다. 먼저 /ttot을 호출하세요", shared, db)
  | some _ =>
    match dbFirst db USER_ID with
    | none => (.error ("User " ++ toString USER_ID ++ "를 찾을 수 없습니다."), shared, db)
    | some user =>
        let ofts := ttsStepProcess tts
        let output_filename := ofts.1
        let tts_success := ofts.2.1
        let tts_error := ofts.2.2
        let user2 := appendRecord user shared.input_wav shared.atot_text
            shared.ttot_text output_filename
        let db2 := dbUpdate db USER_ID user2
        (.ok { user_id := user2.id,
               input_wav := shared.input_wav,
               atot_text := shared.atot_text,
               ttot_text := shared.ttot_text,
               output_wav := output_filename,
               output_wav_list := user2.output_wav_list,
               tts_success := tts_success,
               message := if tts_success then
                   "✅ 성공! TTS 오디오를 \x27" ++ output_filename.getD "" ++
                     "\x27로 저장했습니다."
                 else "⚠️ 데이터는 저장했지만 TTS 생성 실패",
               tts_error := if tts_success then none else tts_error },
         shared, db2)

/-- The `step1_atot` entry of the pipeline result. -/
structure Step1Atot where
  success : Bool
  user_id : Option Int := none
  input_wav : Option String := none
  atot_text : Option String := none
  error : Option String := none
deriving DecidableEq

/-- The `step2_ttot` entry of the pipeline result. -/
structure Step2Ttot where
  success : Bool
  user_id : Option Int := none
  ttot_text : Option String := none
  error : Option String := none
deriving DecidableEq

/-- The `step3_tts` entry of the pipeline result. -/
structure Step3Tts where
  success : Bool
  output_wav : Option String := none
  tts_error : Option String := none
  error : Option String := none
deriving DecidableEq

/-- The `final_data` entry of the pipeline result. -/
structure FinalData where
  input_wav : Option String
  atot_text : Option String
  ttot_text : Option String
  output_wav : Option String
deriving DecidableEq

/-- The aggregated `POST /run-full-pipeline` response body. -/
structure PipelineResult where
  step1_atot : Option Step1Atot
  step2_ttot : Option Step2Ttot
  step3_tts : Option Step3Tts
  success : Bool
  errors : List String
  user_id : Option Int := none
  final_data : Option FinalData := none
deriving DecidableEq

/-- What the three remote services would answer during one pipeline run:
the ATOT call outcome, the TTOT call outcome, and the TTS call outcome.
A stage's entry is consulted only if the handler reaches that stage. -/
structure PipelineInput where
  atot : CallResult AtotBody
  ttot : CallResult TtotBody
  tts : TtsResult
deriving DecidableEq

/-- `POST /run-full-pipeline` (`run_full_pipeline`, lines 288-451):
ATOT, then TTOT, each aborting the run on exception; a missing cached
`ttot_text` or a missing pinned user row also aborts; otherwise TTS runs
and, regardless of its outcome, one element is appended to each of the
four list columns and committed, and `success` is set. -/
def run_full_pipeline (shared : SharedData) (db : DB) (inp : PipelineInput) :
    PipelineResult × SharedData × DB :=
  match inp.atot with
  | .requestError msg | .otherError msg =>
      let em := "ATOT 실패: " ++ msg
      ({ step1_atot := some { success := false, error := some em },
         step2_ttot := none, step3_tts := none, success := false, errors := [em] },
       shared, db)
  | .success atot_data =>
      let shared1 : SharedData :=
        { shared with atot_text := atotReceivedText atot_data,
                      input_wav := atotAudioUrl atot_data }
      let step1 : Step1Atot :=
        { success := true, user_id := atot_data.user_id,
          input_wav := shared1.input_wav, atot_text := shared1.atot_text }
      match inp.ttot with
      | .requestError msg | .otherError msg =>
          let em := "TTOT 실패: " ++ msg
          ({ step1_atot := some step1,
             step2_ttot := some { success := false, error := some em },
             step3_tts := none, success := false, errors := [em] },
           shared1, db)
      | .success ttot_data =>
          let shared2 : SharedData := { shared1 with ttot_text := ttot_data.response }
          let step2 : Step2Ttot :=
            { success := true, user_id := ttot_data.user_id, ttot_text := shared2.ttot_text }
          match ttot_data.response with
          | none =>
              let em := "ttot_text가 비어있습니다"
              ({ step1_atot := some step1, step2_ttot := some step2,
                 step3_tts := some { success := false, error := some em },
                 success := false, errors := [em] },
               shared2, db)
          | some _ =>
              match dbFirst db USER_ID with
              | none =>
                  let em := "User " ++ toString USER_ID ++ "를 찾을 수 없습니다"
                  ({ step1_atot := some step1, step2_ttot := some step2,
                     step3_tts := none, success := false, errors := [em] },
                   shared2, db)
              | some user =>
                  let ofts := ttsStep inp.tts
                  let output_filename := ofts.1
                  let user2 := appendRecord user shared2.input_wav shared2.atot_text
                      shared2.ttot_text output_filename
                  let db2 := dbUpdate db USER_ID user2
                  ({ step1_atot := some step1, step2_ttot := some step2,
                     step3_tts := some { success := ofts.2.1, output_wav := output_filename,
                                         tts_error := ofts.2.2 },
                     success := true, errors := [],
                     user_id := some USER_ID,
                     final_data := some { input_wav := shared2.input_wav,
                                          atot_text := shared2.atot_text,
                                          ttot_text := shared2.ttot_text,
                                          output_wav := output_filename } },
                   shared2, db2)

theorem appendRecord_id (user : UserDB) (i a t o : Option String) :
    (appendRecord user i a t o).id = user.id := rfl

theorem dbFirst_some_id (db : DB) (uid : Int) (u : UserDB)
    (h : dbFirst db uid = some u) : u.id = uid := by
  have hp := List.find?_some h
  simpa using hp

theorem dbFirst_cons (v : UserDB) (vs : DB) (uid : Int) :
    dbFirst (v :: vs) uid = if v.id == uid then some v else dbFirst vs uid := by
  simp only [dbFirst, List.find?_cons]
  cases h : (v.id == uid) <;> simp [h, dbFirst]

theorem dbUpdate_cons (v : UserDB) (vs : DB) (uid : Int) (u' : UserDB) :
    dbUpdate (v :: vs) uid u' = (if v.id == uid then u' else v) :: dbUpdate vs uid u' := rfl

theorem dbFirst_update_self (db : DB) (uid : Int) (u u' : UserDB)
    (hid : u'.id = uid) (h : dbFirst db uid = some u) :
    dbFirst (dbUpdate db uid u') uid = some u' := by
  induction db with
  | nil => simp [dbFirst] at h
  | cons v vs ih =>
      rw [dbFirst_cons] at h
      rw [dbUpdate_cons, dbFirst_cons]
      by_cases hv : (v.id == uid) = true
      · have h2 : (u'.id == uid) = true := by simp [hid]
        simp [hv, h2]
      · have hvf : (v.id == uid) = false := by simpa using hv
        rw [hvf] at h
        simp only [hvf, Bool.false_eq_true, if_false] at h ⊢
        exact ih h

theorem dbFirst_update_other (db : DB) (uid w : Int) (u' : UserDB)
    (hid : u'.id = uid) (hw : w ≠ uid) :
    dbFirst (dbUpdate db uid u') w = dbFirst db w := by
  induction db with
  | nil => rfl
  | cons v vs ih =>
      rw [dbUpdate_cons, dbFirst_cons, dbFirst_cons]
      by_cases hv : (v.id == uid) = true
      · have h1 : (u'.id == w) = false := by
          rw [hid]
          exact beq_eq_false_iff_ne.mpr (Ne.symm hw)
        have h2 : (v.id == w) = false := by
          have hvid : v.id = uid := by simpa using hv
          rw [hvid]
          exact beq_eq_false_iff_ne.mpr (Ne.symm hw)
        simp [hv, h1, h2, ih]
      · have hvf : (v.id == uid) = false := by simpa using hv
        simp only [hvf, Bool.false_eq_true, if_false]
        cases hvw : (v.id == w) <;> simp [hvw, ih]

theorem ttsStep_fail_output_none (tts : TtsResult) (h : (ttsStep tts).2.1 = false) :
    (ttsStep tts).1 = none := by
  cases tts with
  | ok content =>
      by_cases hc : content.length > 0
      · simp [ttsStep, hc] at h
      · simp [ttsStep, hc]
  | connectError m => rfl
  | statusError s m => rfl
  | otherError m => rfl

theorem ttsStep_ok_output (tts : TtsResult) (h : (ttsStep tts).2.1 = true) :
    (ttsStep tts).1 = some "received_audio.wav" := by
  cases tts with
  | ok content =>
      by_cases hc : content.length > 0
      · simp [ttsStep, hc]
      · simp [ttsStep, hc] at h
  | connectError m => simp [ttsStep] at h
  | statusError s m => simp [ttsStep] at h
  | otherError m => simp [ttsStep] at h

/-- Characterization of the one path of `run_full_pipeline` that reaches
the DB write: ATOT and TTOT both 2xx, a non-null `response` field, and a
present pinned-user row. -/
theorem run_full_pipeline_success_eq (shared : SharedData) (db : DB) (inp : PipelineInput)
    (a : AtotBody) (t : TtotBody) (g : String) (u : UserDB)
    (ha : inp.atot = .success a) (ht : inp.ttot = .success t)
    (hg : t.response = some g) (hu : dbFirst db USER_ID = some u) :
    run_full_pipeline shared db inp =
      ({ step1_atot := some { success := true, user_id := a.user_id,
                              input_wav := atotAudioUrl a, atot_text := atotReceivedText a },
         step2_ttot := some { success := true, user_id := t.user_id, ttot_text := some g },
         step3_tts := some { success := (ttsStep inp.tts).2.1,
                             output_wav := (ttsStep inp.tts).1,
                             tts_error := (ttsStep inp.tts).2.2 },
         success := true, errors := [],
         user_id := some USER_ID,
         final_data := some { input_wav := atotAudioUrl a, atot_text := atotReceivedText a,
                              ttot_text := some g, output_wav := (ttsStep inp.tts).1 } },
       { shared with input_wav := atotAudioUrl a, atot_text := atotReceivedText a,
                     ttot_text := some g },
       dbUpdate db USER_ID
         (appendRecord u (atotAudioUrl a) (atotReceivedText a) (some g)
           (ttsStep inp.tts).1)) := by
  unfold run_full_pipeline
  rw [ha, ht]
  simp [hg, hu]

/-- If the aggregated result reports `success`, the run went through the
DB-write path: both remote calls succeeded, the TTOT body carried a
non-null `response`, and the pinned user's row existed. -/
theorem run_full_pipeline_success_inv (shared : SharedData) (db : DB) (inp : PipelineInput)
    (hs : (run_full_pipeline shared db inp).1.success = true) :
    ∃ a t g u, inp.atot = .success a ∧ inp.ttot = .success t ∧
      t.response = some g ∧ dbFirst db USER_ID = some u := by
  cases ha : inp.atot with
  | requestError m => simp [run_full_pipeline, ha] at hs
  | otherError m => simp [run_full_pipeline, ha] at hs
  | success a =>
      cases ht : inp.ttot with
      | requestError m => simp [run_full_pipeline, ha, ht] at hs
      | otherError m => simp [run_full_pipeline, ha, ht] at hs
      | success t =>
          cases hg : t.response with
          | none => simp [run_full_pipeline, ha, ht, hg] at hs
          | some g =>
              cases hu : dbFirst db USER_ID with
              | none => simp [run_full_pipeline, ha, ht, hg, hu] at hs
              | some u => exact ⟨a, t, g, u, rfl, rfl, hg, rfl⟩

/-- The shared context at process start: all fields `None`. -/
def sharedInit : SharedData :=
  { user_id := none, input_wav := none, atot_text := none, ttot_text := none }

/-- A pinned-user row whose four list columns are SQL NULL. -/
def demoUser : UserDB :=
  { id := 10, input_wav_list := none, atot_text_list := none,
    ttot_text_list := none, output_wav_list := none }

/-- A one-row table holding only the pinned user. -/
def demoDb : DB := [demoUser]

/-- An ATOT body with the full expected nested path. -/
def demoAtotBody : AtotBody :=
  { user_id := some 7,
    result_details := some { received_text := some "hello", audio_url := some "a.wav" } }

/-- An ATOT body missing the nested `result.details` path. -/
def demoAtotNoDetails : AtotBody := { user_id := some 7, result_details := none }

/-- A TTOT body with a present `response` field. -/
def demoTtotBody : TtotBody := { user_id := some 7, response := some "hi there" }

/-- A fully successful set of remote outcomes. -/
def demoInpOk : PipelineInput :=
  ⟨.success demoAtotBody, .success demoTtotBody, .ok [1, 2]⟩

/-- C1: every run of the full pipeline that reaches the persistence step
(equivalently, that reports `success`) extends all four sequences of the
persisted user's history by exactly one element: starting from any state
where the four `or []`-normalized list columns have equal length `n`,
after the run all four have length `n + 1`; no run appends to only some
of the four. -/
theorem run_reaching_persist_grows_all_four (shared : SharedData) (db : DB)
    (inp : PipelineInput) (u : UserDB) (n : Nat)
    (hs : (run_full_pipeline shared db inp).1.success = true)
    (hu : dbFirst db USER_ID = some u)
    (h1 : (u.input_wav_list.getD []).length = n)
    (h2 : (u.atot_text_list.getD []).length = n)
    (h3 : (u.ttot_text_list.getD []).length = n)
    (h4 : (u.output_wav_list.getD []).length = n) :
    ∃ u', dbFirst (run_full_pipeline shared db inp).2.2 USER_ID = some u' ∧
      (u'.input_wav_list.getD []).length = n + 1 ∧
      (u'.atot_text_list.getD []).length = n + 1 ∧
      (u'.ttot_text_list.getD []).length = n + 1 ∧
      (u'.output_wav_list.getD []).length = n + 1 := by
  obtain ⟨a, t, g, u0, ha, ht, hg, hu0⟩ := run_full_pipeline_success_inv shared db inp hs
  have hu0u : u0 = u := by
    rw [hu0] at hu
    exact Option.some.inj hu
  subst hu0u
  rw [run_full_pipeline_success_eq shared db inp a t g u0 ha ht hg hu0]
  refine ⟨appendRecord u0 (atotAudioUrl a) (atotReceivedText a) (some g) (ttsStep inp.tts).1,
    dbFirst_update_self db USER_ID u0 _ ?_ hu0, ?_, ?_, ?_, ?_⟩
  · rw [appendRecord_id]
    exact dbFirst_some_id db USER_ID u0 hu0
  all_goals simp [appendRecord, h1, h2, h3, h4]

theorem run_reaching_persist_grows_all_four_witness :
    ∃ u', dbFirst (run_full_pipeline sharedInit demoDb demoInpOk).2.2 USER_ID = some u' ∧
      (u'.input_wav_list.getD []).length = 0 + 1 ∧
      (u'.atot_text_list.getD []).length = 0 + 1 ∧
      (u'.ttot_text_list.getD []).length = 0 + 1 ∧
      (u'.output_wav_list.getD []).length = 0 + 1 :=
  run_reaching_persist_grows_all_four sharedInit demoDb demoInpOk demoUser 0
    rfl rfl rfl rfl rfl rfl

/-- C2: a run whose Recognize (ATOT) call raises — transport error or
non-2xx — and a run whose Generate (TTOT) call raises after a 2xx
Recognize, terminate before the Synthesize stage: the aggregated result
has `success = false`, its single error entry names the failed stage,
`step3_tts` is absent, the stored history is unchanged, and the outcome
does not depend on what the TTS service would have answered. -/
theorem recognize_or_generate_failure_aborts (shared : SharedData) (db : DB)
    (inp : PipelineInput) (msg : String) :
    ((inp.atot = .requestError msg ∨ inp.atot = .otherError msg) →
      (run_full_pipeline shared db inp).1.success = false ∧
      (run_full_pipeline shared db inp).2.2 = db ∧
      (run_full_pipeline shared db inp).1.step3_tts = none ∧
      (run_full_pipeline shared db inp).1.errors = ["ATOT 실패: " ++ msg] ∧
      (∀ tts', run_full_pipeline shared db ⟨inp.atot, inp.ttot, tts'⟩ =
        run_full_pipeline shared db inp)) ∧
    (∀ a, inp.atot = .success a →
      (inp.ttot = .requestError msg ∨ inp.ttot = .otherError msg) →
      (run_full_pipeline shared db inp).1.success = false ∧
      (run_full_pipeline shared db inp).2.2 = db ∧
      (run_full_pipeline shared db inp).1.step3_tts = none ∧
      (run_full_pipeline shared db inp).1.errors = ["TTOT 실패: " ++ msg] ∧
      (∀ tts', run_full_pipeline shared db ⟨inp.atot, inp.ttot, tts'⟩ =
        run_full_pipeline shared db inp)) := by
  constructor
  · rintro (ha | ha) <;> simp [run_full_pipeline, ha]
  · rintro a ha (ht | ht) <;> simp [run_full_pipeline, ha, ht]

theorem recognize_or_generate_failure_aborts_witness :
    ((run_full_pipeline sharedInit demoDb
        ⟨.requestError "boom", .success demoTtotBody, .ok [1]⟩).2.2 = demoDb) ∧
    ((run_full_pipeline sharedInit demoDb
        ⟨.success demoAtotBody, .otherError "boom", .ok [1]⟩).1.errors =
      ["TTOT 실패: " ++ "boom"]) :=
  ⟨((recognize_or_generate_failure_aborts sharedInit demoDb
      ⟨.requestError "boom", .success demoTtotBody, .ok [1]⟩ "boom").1
      (Or.inl rfl)).2.1,
   (((recognize_or_generate_failure_aborts sharedInit demoDb
      ⟨.success demoAtotBody, .otherError "boom", .ok [1]⟩ "boom").2
      demoAtotBody rfl (Or.inr rfl)).2.2.2.1)⟩

/-- C3 counterexample: Recognize returns 2xx (but without the nested
`result.details` path), Generate returns 2xx with text, Synthesize
returns a zero-length body.  The run reports `success = true` with
`ttsSuccess = false` and appends one entry — but that entry's
`recognizedText` is the empty string, contradicting the claim that the
recognized and generated texts of such an entry are non-empty. -/
theorem synth_fail_entry_counterexample :
    (run_full_pipeline sharedInit demoDb
      ⟨.success demoAtotNoDetails, .success demoTtotBody, .ok []⟩).1.success = true ∧
    ((run_full_pipeline sharedInit demoDb
      ⟨.success demoAtotNoDetails, .success demoTtotBody, .ok []⟩).1.step3_tts.map
        Step3Tts.success) = some false ∧
    dbFirst (run_full_pipeline sharedInit demoDb
      ⟨.success demoAtotNoDetails, .success demoTtotBody, .ok []⟩).2.2 USER_ID =
      some { id := 10, input_wav_list := some [none],
             atot_text_list := some [some ""],
             ttot_text_list := some [some "hi there"],
             output_wav_list := some [none] } :=
  ⟨rfl, rfl, rfl⟩

/-- C3 (amended): when Recognize and Generate return 2xx, the generated
text is non-null, the pinned user's row exists, and Synthesize fails
(zero-length body, unreachable host, or non-2xx), the run still returns
`success = true` with `ttsSuccess = false`, and the history gains exactly
one entry whose `outputAudioRef` is absent and whose `recognizedText`
and `generatedText` are the stage texts with null coalesced to the empty
string (hence non-empty whenever the stages produced non-empty text). -/
theorem synth_fail_records_text_only (shared : SharedData) (db : DB) (inp : PipelineInput)
    (a : AtotBody) (t : TtotBody) (g : String) (u : UserDB)
    (ha : inp.atot = .success a) (ht : inp.ttot = .success t)
    (hg : t.response = some g) (hu : dbFirst db USER_ID = some u)
    (hfail : (ttsStep inp.tts).2.1 = false) :
    (run_full_pipeline shared db inp).1.success = true ∧
    (run_full_pipeline shared db inp).1.step3_tts =
      some { success := false, output_wav := none, tts_error := (ttsStep inp.tts).2.2 } ∧
    ∃ u', dbFirst (run_full_pipeline shared db inp).2.2 USER_ID = some u' ∧
      u'.input_wav_list = some ((u.input_wav_list.getD []) ++
        [if pyTruthyStr (atotAudioUrl a) then atotAudioUrl a else none]) ∧
      u'.atot_text_list = some ((u.atot_text_list.getD []) ++
        [some ((atotReceivedText a).getD "")]) ∧
      u'.ttot_text_list = some ((u.ttot_text_list.getD []) ++ [some g]) ∧
      u'.output_wav_list = some ((u.output_wav_list.getD []) ++ [none]) := by
  have hout := ttsStep_fail_output_none inp.tts hfail
  rw [run_full_pipeline_success_eq shared db inp a t g u ha ht hg hu, hout, hfail]
  refine ⟨rfl, rfl,
    appendRecord u (atotAudioUrl a) (atotReceivedText a) (some g) none,
    dbFirst_update_self db USER_ID u _ ?_ hu, ?_, ?_, ?_, ?_⟩
  · rw [appendRecord_id]
    exact dbFirst_some_id db USER_ID u hu
  all_goals simp [appendRecord, pyTruthyStr]

theorem synth_fail_records_text_only_witness :
    (run_full_pipeline sharedInit demoDb
      ⟨.success demoAtotBody, .success demoTtotBody, .ok []⟩).1.success = true :=
  (synth_fail_records_text_only sharedInit demoDb
    ⟨.success demoAtotBody, .success demoTtotBody, .ok []⟩
    demoAtotBody demoTtotBody "hi there" demoUser rfl rfl rfl rfl rfl).1

/-- A TTOT body that is 2xx but has no `response` field. -/
def demoTtotNoResponse : TtotBody := { user_id := some 7, response := none }

/-- C4 counterexample: the Generate stage returns Success (2xx, reported
with `success = true` in `step2_ttot`) but its body lacks the `response`
field; the handler then aborts before the TTS call with
`success = false` and the history is NOT appended — persistence is
skipped even though Generate returned Success. -/
theorem generate_success_persist_counterexample :
    ((run_full_pipeline sharedInit demoDb
      ⟨.success demoAtotBody, .success demoTtotNoResponse, .ok [1]⟩).1.step2_ttot.map
        Step2Ttot.success) = some true ∧
    (run_full_pipeline sharedInit demoDb
      ⟨.success demoAtotBody, .success demoTtotNoResponse, .ok [1]⟩).1.success = false ∧
    (run_full_pipeline sharedInit demoDb
      ⟨.success demoAtotBody, .success demoTtotNoResponse, .ok [1]⟩).2.2 = demoDb :=
  ⟨rfl, rfl, rfl⟩

/-- C4 (amended): when the Generate stage returns Success with a
non-null generated text and the pinned user's row exists, the
orchestrator runs the Synthesize stage and then — whatever Synthesize's
outcome — executes the persistence step exactly once: the committed
table is precisely the input table with the pinned user's row extended
by the one appended record, so each of its four sequences grows by
exactly one element. -/
theorem generate_success_persists_once (shared : SharedData) (db : DB) (inp : PipelineInput)
    (a : AtotBody) (t : TtotBody) (g : String) (u : UserDB)
    (ha : inp.atot = .success a) (ht : inp.ttot = .success t)
    (hg : t.response = some g) (hu : dbFirst db USER_ID = some u) :
    (run_full_pipeline shared db inp).1.success = true ∧
    (run_full_pipeline shared db inp).1.step3_tts =
      some { success := (ttsStep inp.tts).2.1, output_wav := (ttsStep inp.tts).1,
             tts_error := (ttsStep inp.tts).2.2 } ∧
    (run_full_pipeline shared db inp).2.2 =
      dbUpdate db USER_ID (appendRecord u (atotAudioUrl a) (atotReceivedText a) (some g)
        (ttsStep inp.tts).1) ∧
    ∃ u', dbFirst (run_full_pipeline shared db inp).2.2 USER_ID = some u' ∧
      (u'.input_wav_list.getD []).length = (u.input_wav_list.getD []).length + 1 ∧
      (u'.atot_text_list.getD []).length = (u.atot_text_list.getD []).length + 1 ∧
      (u'.ttot_text_list.getD []).length = (u.ttot_text_list.getD []).length + 1 ∧
      (u'.output_wav_list.getD []).length = (u.output_wav_list.getD []).length + 1 := by
  rw [run_full_pipeline_success_eq shared db inp a t g u ha ht hg hu]
  refine ⟨rfl, rfl, rfl,
    appendRecord u (atotAudioUrl a) (atotReceivedText a) (some g) (ttsStep inp.tts).1,
    dbFirst_update_self db USER_ID u _ ?_ hu, ?_, ?_, ?_, ?_⟩
  · rw [appendRecord_id]
    exact dbFirst_some_id db USER_ID u hu
  all_goals simp [appendRecord]

theorem generate_success_persists_once_witness :
    (run_full_pipeline sharedInit demoDb demoInpOk).1.success = true :=
  (generate_success_persists_once sharedInit demoDb demoInpOk
    demoAtotBody demoTtotBody "hi there" demoUser rfl rfl rfl rfl).1

/-- C5 counterexample: reading the history of the unknown `userId` 7
against an empty store answers HTTP 404 ("User not found") — an error,
not an empty-but-valid history, and no lazy creation takes place. -/
theorem get_history_unknown_user_counterexample :
    get_user 7 [] = GetUserResult.notFound :=
  rfl

/-- C5 (amended): only the pinned `userId` (10) is lazily created, and
only by the root endpoint: `read_root` on a store without the pinned row
answers an empty-but-valid history (all four sequences empty) and
creates the row, while the per-user endpoint `get_user` answers a 404
error for every unknown `userId`. -/
theorem lazy_creation_only_pinned_user (db : DB) (uid : Int)
    (hu : dbFirst db USER_ID = none) (hw : dbFirst db uid = none) :
    (read_root db).1.user =
      { id := USER_ID, input_wav_list := [], atot_text_list := [],
        ttot_text_list := [], output_wav_list := [] } ∧
    (read_root db).2 = db ++ [emptyPinnedUser] ∧
    dbFirst (read_root db).2 USER_ID = some emptyPinnedUser ∧
    get_user uid db = GetUserResult.notFound := by
  refine ⟨?_, ?_, ?_, ?_⟩
  · simp [read_root, hu, emptyPinnedUser]
  · simp [read_root, hu]
  · have hu' : List.find? (fun v => v.id == USER_ID) db = none := hu
    simp [read_root, hu, dbFirst, List.find?_append, hu', emptyPinnedUser]
  · simp [get_user, hw]

theorem lazy_creation_only_pinned_user_witness :
    (read_root []).1.user =
      { id := USER_ID, input_wav_list := [], atot_text_list := [],
        ttot_text_list := [], output_wav_list := [] } ∧
    (read_root []).2 = [] ++ [emptyPinnedUser] ∧
    dbFirst (read_root []).2 USER_ID = some emptyPinnedUser ∧
    get_user 7 [] = GetUserResult.notFound :=
  lazy_creation_only_pinned_user [] 7 rfl rfl

/-- C6: a 2xx Recognize response whose body lacks the nested
`result.details` path yields Success with both `recognizedText` and
`inputAudioRef` null: the `/atot` endpoint answers an `ok` body with
both fields null (storing the nulls in the shared context), and the full
pipeline marks `step1_atot` successful with both fields null and
proceeds to the Generate stage. -/
theorem recognize_missing_path_is_success_with_nulls (shared : SharedData) (db : DB)
    (inp : PipelineInput) (a : AtotBody)
    (ha : inp.atot = .success a) (hd : a.result_details = none) :
    get_atot shared inp.atot =
      (AtotEndpointResult.ok a.user_id none none,
       { shared with user_id := a.user_id, input_wav := none, atot_text := none }) ∧
    (run_full_pipeline shared db inp).1.step1_atot =
      some { success := true, user_id := a.user_id, input_wav := none, atot_text := none } ∧
    (run_full_pipeline shared db inp).1.step2_ttot ≠ none := by
  have h1 : atotReceivedText a = none := by simp [atotReceivedText, hd]
  have h2 : atotAudioUrl a = none := by simp [atotAudioUrl, hd]
  refine ⟨by simp [get_atot, ha, h1, h2], ?_⟩
  cases ht : inp.ttot with
  | requestError m =>
      exact ⟨by simp [run_full_pipeline, ha, ht, h1, h2],
             by simp [run_full_pipeline, ha, ht]⟩
  | otherError m =>
      exact ⟨by simp [run_full_pipeline, ha, ht, h1, h2],
             by simp [run_full_pipeline, ha, ht]⟩
  | success t =>
      cases hg : t.response with
      | none =>
          exact ⟨by simp [run_full_pipeline, ha, ht, hg, h1, h2],
                 by simp [run_full_pipeline, ha, ht, hg]⟩
      | some g =>
          cases hu : dbFirst db USER_ID with
          | none =>
              exact ⟨by simp [run_full_pipeline, ha, ht, hg, hu, h1, h2],
                     by simp [run_full_pipeline, ha, ht, hg, hu]⟩
          | some u =>
              exact ⟨by simp [run_full_pipeline, ha, ht, hg, hu, h1, h2],
                     by simp [run_full_pipeline, ha, ht, hg, hu]⟩

theorem recognize_missing_path_is_success_with_nulls_witness :
    get_atot sharedInit (CallResult.success demoAtotNoDetails) =
      (AtotEndpointResult.ok demoAtotNoDetails.user_id none none,
       { sharedInit with user_id := demoAtotNoDetails.user_id,
                         input_wav := none, atot_text := none }) :=
  (recognize_missing_path_is_success_with_nulls sharedInit demoDb
    ⟨.success demoAtotNoDetails, .success demoTtotBody, .ok [1]⟩
    demoAtotNoDetails rfl rfl).1

/-- An ATOT body whose `audio_url` is present but the empty string. -/
def demoAtotEmptyUrl : AtotBody :=
  { user_id := some 7,
    result_details := some { received_text := some "hello", audio_url := some "" } }

/-- C7 counterexample: a run whose Recognize response carries the
present (but empty) `audio_url` `""` reaches persistence with
`inputAudioRef` present in the context (`some ""`), yet the appended
element is the absent marker `None`, not the present value stored
as-is — Python truthiness, not presence, decides the stored element. -/
theorem persist_input_ref_counterexample :
    (run_full_pipeline sharedInit demoDb
      ⟨.success demoAtotEmptyUrl, .success demoTtotBody, .ok [1, 2]⟩).2.1.input_wav =
      some "" ∧
    dbFirst (run_full_pipeline sharedInit demoDb
      ⟨.success demoAtotEmptyUrl, .success demoTtotBody, .ok [1, 2]⟩).2.2 USER_ID =
      some { id := 10, input_wav_list := some [none],
             atot_text_list := some [some "hello"],
             ttot_text_list := some [some "hi there"],
             output_wav_list := some [some "received_audio.wav"] } :=
  ⟨rfl, rfl⟩

/-- C7 (amended): for every run that reaches the persistence step, the
appended record is exactly: `inputAudioRef` stored as-is when present
and non-empty, and as the explicit absent marker when null or empty;
`recognizedText` and `generatedText` stored with null coalesced to the
empty string; `outputAudioRef` stored as the output artifact name on
Synthesize success and as the explicit absent marker otherwise. -/
theorem persist_record_shape (shared : SharedData) (db : DB) (inp : PipelineInput)
    (a : AtotBody) (t : TtotBody) (g : String) (u : UserDB)
    (ha : inp.atot = .success a) (ht : inp.ttot = .success t)
    (hg : t.response = some g) (hu : dbFirst db USER_ID = some u) :
    ∃ u', dbFirst (run_full_pipeline shared db inp).2.2 USER_ID = some u' ∧
      u'.input_wav_list = some ((u.input_wav_list.getD []) ++
        [if pyTruthyStr (atotAudioUrl a) then atotAudioUrl a else none]) ∧
      u'.atot_text_list = some ((u.atot_text_list.getD []) ++
        [some ((atotReceivedText a).getD "")]) ∧
      u'.ttot_text_list = some ((u.ttot_text_list.getD []) ++
        [some ((t.response).getD "")]) ∧
      u'.output_wav_list = some ((u.output_wav_list.getD []) ++
        [if (ttsStep inp.tts).2.1 then some "received_audio.wav" else none]) := by
  rw [run_full_pipeline_success_eq shared db inp a t g u ha ht hg hu]
  refine ⟨appendRecord u (atotAudioUrl a) (atotReceivedText a) (some g) (ttsStep inp.tts).1,
    dbFirst_update_self db USER_ID u _ ?_ hu, ?_, ?_, ?_, ?_⟩
  · rw [appendRecord_id]
    exact dbFirst_some_id db USER_ID u hu
  · simp [appendRecord]
  · simp [appendRecord]
  · simp [appendRecord, hg]
  · cases hb : (ttsStep inp.tts).2.1 with
    | false =>
        rw [ttsStep_fail_output_none inp.tts hb]
        simp [appendRecord, pyTruthyStr]
    | true =>
        rw [ttsStep_ok_output inp.tts hb]
        simp [appendRecord, pyTruthyStr]

theorem persist_record_shape_witness :
    ∃ u', dbFirst (run_full_pipeline sharedInit demoDb demoInpOk).2.2 USER_ID = some u' ∧
      u'.input_wav_list = some ((demoUser.input_wav_list.getD []) ++
        [if pyTruthyStr (atotAudioUrl demoAtotBody) then atotAudioUrl demoAtotBody
         else none]) ∧
      u'.atot_text_list = some ((demoUser.atot_text_list.getD []) ++
        [some ((atotReceivedText demoAtotBody).getD "")]) ∧
      u'.ttot_text_list = some ((demoUser.ttot_text_list.getD []) ++
        [some ((demoTtotBody.response).getD "")]) ∧
      u'.output_wav_list = some ((demoUser.output_wav_list.getD []) ++
        [if (ttsStep demoInpOk.tts).2.1 then some "received_audio.wav" else none]) :=
  persist_record_shape sharedInit demoDb demoInpOk
    demoAtotBody demoTtotBody "hi there" demoUser rfl rfl rfl rfl

/-- C8: `get_users` returns exactly the stored user histories — one
normalized copy per stored row, nothing else — ordered by `userId`
ascending, with every NULL stored sequence normalized to an empty
sequence (no returned list column is NULL). -/
theorem list_histories_sorted_normalized (db : DB) :
    List.Pairwise (fun a b : UserDB => a.id ≤ b.id) (get_users db) ∧
    (get_users db).Perm (db.map normalizeUser) ∧
    ∀ v ∈ get_users db, v.input_wav_list ≠ none ∧ v.atot_text_list ≠ none ∧
      v.ttot_text_list ≠ none ∧ v.output_wav_list ≠ none := by
  refine ⟨?_, ?_, ?_⟩
  · have h := @List.sorted_mergeSort UserDB (fun a b => decide (a.id ≤ b.id))
      (by intro a b c hab hbc; simp at hab hbc ⊢; omega)
      (by intro a b; simp [Bool.or_eq_true, decide_eq_true_iff]; omega) db
    have hq : List.Pairwise (fun a b : UserDB => a.id ≤ b.id) (queryAll db) :=
      h.imp (by intro a b hh; simpa using hh)
    exact hq.map normalizeUser (by intro a b hh; simpa [normalizeUser] using hh)
  · exact (List.mergeSort_perm db _).map normalizeUser
  · intro v hv
    obtain ⟨u, _, hvu⟩ := List.mem_map.mp hv
    subst hvu
    simp [normalizeUser]

/-- C9: calling `/process-audio` while the shared context holds no
generated text answers the fixed error body, leaves the stored history
and the shared context unchanged, and consults no TTS outcome — the
whole triple is one constant, the same for every TTS answer. -/
theorem process_audio_without_ttot_text (shared : SharedData) (db : DB) (tts : TtsResult)
    (h : shared.ttot_text = none) :
    process_audio shared db tts =
      (ProcessAudioResult.error "ttot_text가 없습니다. 먼저 /ttot을 호출하세요", shared, db) ∧
    (∀ tts', process_audio shared db tts' = process_audio shared db tts) := by
  constructor
  · simp [process_audio, h]
  · intro tts'
    simp [process_audio, h]

theorem process_audio_without_ttot_text_witness :
    process_audio sharedInit demoDb (TtsResult.ok [1]) =
      (ProcessAudioResult.error "ttot_text가 없습니다. 먼저 /ttot을 호출하세요",
       sharedInit, demoDb) :=
  (process_audio_without_ttot_text sharedInit demoDb (TtsResult.ok [1]) rfl).1

/-- `inp` with the `user_id` fields of its 2xx stage bodies replaced. -/
def setStageUserIds (inp : PipelineInput) (x y : Option Int) : PipelineInput :=
  { atot := match inp.atot with
            | .success a => .success { a with user_id := x }
            | e => e,
    ttot := match inp.ttot with
            | .success t => .success { t with user_id := y }
            | e => e,
    tts := inp.tts }

/-- C10: every history append targets the pinned user (id 10): rows of
every other id are untouched by both pipeline entry points, and the
`user_id` values of the Recognize and Generate responses are echoed in
`step1_atot`/`step2_ttot` but never influence the committed table. -/
theorem appends_target_pinned_user_only (shared : SharedData) (db : DB)
    (inp : PipelineInput) (w : Int) (hw : w ≠ USER_ID) :
    dbFirst (run_full_pipeline shared db inp).2.2 w = dbFirst db w ∧
    (∀ tts, dbFirst (process_audio shared db tts).2.2 w = dbFirst db w) ∧
    (∀ x y, (run_full_pipeline shared db (setStageUserIds inp x y)).2.2 =
      (run_full_pipeline shared db inp).2.2) ∧
    (∀ a, inp.atot = .success a →
      ((run_full_pipeline shared db inp).1.step1_atot.map Step1Atot.user_id) =
        some a.user_id) ∧
    (∀ a t, inp.atot = .success a → inp.ttot = .success t →
      ((run_full_pipeline shared db inp).1.step2_ttot.map Step2Ttot.user_id) =
        some t.user_id) := by
  refine ⟨?_, ?_, ?_, ?_, ?_⟩
  · cases ha : inp.atot with
    | requestError m => simp [run_full_pipeline, ha]
    | otherError m => simp [run_full_pipeline, ha]
    | success a =>
        cases ht : inp.ttot with
        | requestError m => simp [run_full_pipeline, ha, ht]
        | otherError m => simp [run_full_pipeline, ha, ht]
        | success t =>
            cases hg : t.response with
            | none => simp [run_full_pipeline, ha, ht, hg]
            | some g =>
                cases hu : dbFirst db USER_ID with
                | none => simp [run_full_pipeline, ha, ht, hg, hu]
                | some u =>
                    rw [run_full_pipeline_success_eq shared db inp a t g u ha ht hg hu]
                    exact dbFirst_update_other db USER_ID w _
                      (by rw [appendRecord_id]; exact dbFirst_some_id db USER_ID u hu) hw
  · intro tts
    cases hts : shared.ttot_text with
    | none => simp [process_audio, hts]
    | some s =>
        cases hu : dbFirst db USER_ID with
        | none => simp [process_audio, hts, hu]
        | some u =>
            simp only [process_audio, hts, hu]
            exact dbFirst_update_other db USER_ID w _
              (by rw [appendRecord_id]; exact dbFirst_some_id db USER_ID u hu) hw
  · intro x y
    cases ha : inp.atot with
    | requestError m => simp [run_full_pipeline, setStageUserIds, ha]
    | otherError m => simp [run_full_pipeline, setStageUserIds, ha]
    | success a =>
        cases ht : inp.ttot with
        | requestError m => simp [run_full_pipeline, setStageUserIds, ha, ht]
        | otherError m => simp [run_full_pipeline, setStageUserIds, ha, ht]
        | success t =>
            cases hg : t.response with
            | none => simp [run_full_pipeline, setStageUserIds, ha, ht, hg]
            | some g =>
                cases hu : dbFirst db USER_ID with
                | none => simp [run_full_pipeline, setStageUserIds, ha, ht, hg, hu]
                | some u =>
                    have ha' : (setStageUserIds inp x y).atot =
                        .success { a with user_id := x } := by
                      simp [setStageUserIds, ha]
                    have ht' : (setStageUserIds inp x y).ttot =
                        .success { t with user_id := y } := by
                      simp [setStageUserIds, ht]
                    have hg' : ({ t with user_id := y } : TtotBody).response = some g := hg
                    rw [run_full_pipeline_success_eq shared db _ _ _ g u ha' ht' hg' hu,
                        run_full_pipeline_success_eq shared db inp a t g u ha ht hg hu]
                    rfl
  · intro a ha
    cases ht : inp.ttot with
    | requestError m => simp [run_full_pipeline, ha, ht]
    | otherError m => simp [run_full_pipeline, ha, ht]
    | success t =>
        cases hg : t.response with
        | none => simp [run_full_pipeline, ha, ht, hg]
        | some g =>
            cases hu : dbFirst db USER_ID with
            | none => simp [run_full_pipeline, ha, ht, hg, hu]
            | some u => simp [run_full_pipeline, ha, ht, hg, hu]
  · intro a t ha ht
    cases hg : t.response with
    | none => simp [run_full_pipeline, ha, ht, hg]
    | some g =>
        cases hu : dbFirst db USER_ID with
        | none => simp [run_full_pipeline, ha, ht, hg, hu]
        | some u => simp [run_full_pipeline, ha, ht, hg, hu]

theorem appends_target_pinned_user_only_witness :
    dbFirst (run_full_pipeline sharedInit demoDb demoInpOk).2.2 7 = dbFirst demoDb 7 :=
  (appends_target_pinned_user_only sharedInit demoDb demoInpOk 7 (by decide)).1
